import Mathlib

/-!
# Verification of the vcf_parser pipeline

A shallow embedding of "src/vcf_parser.py": Python runtime values are the
inductive type "PyVal", fallible Python operations return "Except Err",
and Python floats are modelled as exact fractions of integers ("Flt").
The embedded functions keep the names of the source functions:
"parse_vcf_entry", "query_ensembl", "extract_csv_fields", and "main"
(embedded as "main_pipeline", since Lean reserves the name "main").
-/

/-- Exception classes that the dynamic operations of the program can raise. -/
inductive Err where
  | typeError
  | zeroDivisionError
  | attributeError
  | keyError
  | indexError
deriving DecidableEq, Repr

/-- A Python float, modelled as an exact fraction "num / den" with "den > 0"
maintained by every constructor used in the program. Fractions are kept
unreduced so that all arithmetic is plain integer arithmetic. -/
structure Flt where
  num : ℤ
  den : ℤ
deriving DecidableEq, Repr

/-- A Python / JSON runtime value. Dictionaries are association lists with
string keys, matching the JSON objects and dict literals of the program. -/
inductive PyVal where
  | none
  | bool (b : Bool)
  | int (n : ℤ)
  | float (f : Flt)
  | str (s : String)
  | list (l : List PyVal)
  | dict (d : List (String × PyVal))

/-- Lookup of a key in a Python dict (association list, first match). -/
def dictLookup (d : List (String × PyVal)) (k : String) : Option PyVal :=
  match d with
  | [] => Option.none
  | (k1, v1) :: rest => if k1 = k then some v1 else dictLookup rest k

/-- "d.get(k, default)" on a Python dict. -/
def dictGetD (d : List (String × PyVal)) (k : String) (dflt : PyVal) : PyVal :=
  (dictLookup d k).getD dflt

/-- "k in d" on a Python dict: key membership. -/
def dictMem (d : List (String × PyVal)) (k : String) : Bool :=
  (dictLookup d k).isSome

/-- "d[k] = v" on a Python dict: update the value in place when the key is
present (keeping its position), append the pair otherwise. -/
def dictSet (d : List (String × PyVal)) (k : String) (v : PyVal) :
    List (String × PyVal) :=
  match d with
  | [] => [(k, v)]
  | (k1, v1) :: rest =>
    if k1 = k then (k, v) :: rest else (k1, v1) :: dictSet rest k v

/-- The double-splat dict display merging "a" then "b": the pairs of "a"
followed by the pairs of "b", a shared key keeping the position it has in "a"
but taking the value it has in "b". -/
def mergeDicts (a b : List (String × PyVal)) : List (String × PyVal) :=
  b.foldl (fun acc kv => dictSet acc kv.1 kv.2) a

/-- A Python value seen as an integer: "int" and "bool" (Python booleans are
integers for arithmetic). -/
def pyIntView : PyVal → Option ℤ
  | .bool b => some (if b then 1 else 0)
  | .int n => some n
  | _ => Option.none

/-- A Python value seen as a number (integer or float) for arithmetic. -/
def pyNumView : PyVal → Option Flt
  | .bool b => some ⟨if b then 1 else 0, 1⟩
  | .int n => some ⟨n, 1⟩
  | .float f => some f
  | _ => Option.none

/-- Python truthiness, as used by "if x" and "x and y". -/
def pyTruthy : PyVal → Bool
  | .none => false
  | .bool b => b
  | .int n => n ≠ 0
  | .float f => f.num ≠ 0
  | .str s => s ≠ ""
  | .list l => ¬ l.isEmpty
  | .dict d => ¬ d.isEmpty

/-- Build a float fraction, normalising the sign of the denominator. -/
def mkFlt (n d : ℤ) : Flt :=
  if d < 0 then ⟨-n, -d⟩ else ⟨n, d⟩

/-- Exact subtraction of fractions. -/
def fltSub (x y : Flt) : Flt :=
  ⟨x.num * y.den - y.num * x.den, x.den * y.den⟩

/-- Exact multiplication of fractions. -/
def fltMul (x y : Flt) : Flt :=
  ⟨x.num * y.num, x.den * y.den⟩

/-- Exact division of fractions (the caller has excluded a zero divisor). -/
def fltDiv (x y : Flt) : Flt :=
  mkFlt (x.num * y.den) (x.den * y.num)

/-- Python "a - b": integer subtraction when both operands are integers,
float subtraction when both are numeric, "TypeError" otherwise. -/
def pySub (a b : PyVal) : Except Err PyVal :=
  match pyIntView a, pyIntView b with
  | some x, some y => .ok (.int (x - y))
  | _, _ =>
    match pyNumView a, pyNumView b with
    | some x, some y => .ok (.float (fltSub x y))
    | _, _ => .error .typeError

/-- Python "a * b" for the operand shapes reachable in this program (the left
operand of the one multiplication in the source is always a true-division
result, hence numeric): integer product, float product, else "TypeError". -/
def pyMul (a b : PyVal) : Except Err PyVal :=
  match pyIntView a, pyIntView b with
  | some x, some y => .ok (.int (x * y))
  | _, _ =>
    match pyNumView a, pyNumView b with
    | some x, some y => .ok (.float (fltMul x y))
    | _, _ => .error .typeError

/-- Python "a / b": true division, always a float on numeric operands,
"ZeroDivisionError" on a zero divisor, "TypeError" on non-numbers. -/
def pyDiv (a b : PyVal) : Except Err PyVal :=
  match pyNumView a, pyNumView b with
  | some x, some y =>
    if y.num = 0 then .error .zeroDivisionError else .ok (.float (fltDiv x y))
  | _, _ => .error .typeError

/-- Round "n / d" (with "d > 0") to the nearest integer, ties to even, as
Python "round" does. -/
def roundHalfEven (n d : ℤ) : ℤ :=
  let q := n.fdiv d
  let r := n - q * d
  if 2 * r < d then q
  else if d < 2 * r then q + 1
  else if q % 2 = 0 then q else q + 1

/-- Python "round(x, 2)" on the values reachable in this program: a float is
rounded to a float with one-hundredth resolution, an integer (or bool) stays
an integer, anything else is a "TypeError". -/
def pyRound2 : PyVal → Except Err PyVal
  | .float f => .ok (.float ⟨roundHalfEven (f.num * 100) f.den, 100⟩)
  | .int n => .ok (.int n)
  | .bool b => .ok (.int (if b then 1 else 0))
  | _ => .error .typeError

/-- Decimal rendering of a nonnegative float whose value has at most two
decimal places (every float passed to "str" in this program is a
"round(x, 2)" result): Python renders such a float with its decimal digits,
keeping one zero after the point for whole values. -/
def fltStrNN (f : Flt) : String :=
  if (f.num * 100) % f.den = 0 then
    let c := ((f.num * 100) / f.den).toNat
    let ip := c / 100
    let fr := c % 100
    if fr = 0 then toString ip ++ ".0"
    else if fr % 10 = 0 then toString ip ++ "." ++ toString (fr / 10)
    else if fr < 10 then toString ip ++ ".0" ++ toString fr
    else toString ip ++ "." ++ toString fr
  else toString f.num ++ "/" ++ toString f.den

/-- Python "str" of a float (sign handled, then the nonnegative rendering). -/
def fltStr (f : Flt) : String :=
  if f.num < 0 then "-" ++ fltStrNN ⟨-f.num, f.den⟩ else fltStrNN f

mutual

/-- Python "repr" of a value, used by "str" on containers. Only scalar
values ever reach a "str" call in this program, so the container cases are
here only to make the function total over "PyVal". -/
def pyRepr : PyVal → String
  | .none => "None"
  | .bool b => if b then "True" else "False"
  | .int n => toString n
  | .float f => fltStr f
  | .str s => "\x27" ++ s ++ "\x27"
  | .list l => "[" ++ pyReprList l ++ "]"
  | .dict d => "\x7b" ++ pyReprDict d ++ "\x7d"

/-- Comma-separated "repr" of list elements. -/
def pyReprList : List PyVal → String
  | [] => ""
  | [x] => pyRepr x
  | x :: y :: xs => pyRepr x ++ ", " ++ pyReprList (y :: xs)

/-- Comma-separated "repr" of dict pairs. -/
def pyReprDict : List (String × PyVal) → String
  | [] => ""
  | [(k, v)] => "\x27" ++ k ++ "\x27: " ++ pyRepr v
  | (k, v) :: p :: xs => "\x27" ++ k ++ "\x27: " ++ pyRepr v ++ ", " ++ pyReprDict (p :: xs)

end

/-- Python "str": identity on strings, "repr"-like rendering otherwise. -/
def pyStr : PyVal → String
  | .str s => s
  | v => pyRepr v

/-- Python "==" restricted to the comparisons this program performs (the left
operand is always the string literal "COSV"): numbers compare by value across
"int", "bool" and "float"; strings compare by content; a string never equals
a number or a container. -/
def pyEqAtom (a b : PyVal) : Bool :=
  match pyNumView a, pyNumView b with
  | some x, some y => x.num * y.den = y.num * x.den
  | some _, Option.none => false
  | Option.none, some _ => false
  | Option.none, Option.none =>
    match a, b with
    | .str s, .str t => s = t
    | .none, .none => true
    | _, _ => false

/-- Is "needle" a contiguous sublist of "hay"? -/
def listInfixOf (needle : List Char) : List Char → Bool
  | [] => needle.isEmpty
  | c :: rest => needle.isPrefixOf (c :: rest) || listInfixOf needle rest

/-- Python "needle in hay": substring test on a string, membership on a list,
key membership on a dict, "TypeError" otherwise. -/
def pyContains (needle hay : PyVal) : Except Err Bool :=
  match hay with
  | .str s =>
    match needle with
    | .str n => .ok (listInfixOf n.toList s.toList)
    | _ => .error .typeError
  | .list l => .ok (l.any (fun x => pyEqAtom needle x))
  | .dict d => .ok (d.any (fun kv => pyEqAtom needle (.str kv.1)))
  | _ => .error .typeError

/-- Python "v.get(key, dflt)": dict lookup with default; every non-dict value
raises "AttributeError" since it has no "get" method. -/
def pyGetAttr (v : PyVal) (key : String) (dflt : PyVal) : Except Err PyVal :=
  match v with
  | .dict d => .ok (dictGetD d key dflt)
  | _ => .error .attributeError

/-- Python "v[0]": first element of a list, first character of a string,
"KeyError" on a (string-keyed) dict, "TypeError" otherwise. -/
def pyGetItem0 (v : PyVal) : Except Err PyVal :=
  match v with
  | .list [] => .error .indexError
  | .list (x :: _) => .ok x
  | .str s =>
    match s.toList with
    | [] => .error .indexError
    | c :: _ => .ok (.str (String.singleton c))
  | .dict _ => .error .keyError
  | _ => .error .typeError

/-- The elements of a list when all of them are strings. -/
def asStrList : List PyVal → Option (List String)
  | [] => some []
  | .str s :: xs => (asStrList xs).map (fun l => s :: l)
  | _ => Option.none

/-- Python "sep.join(v)": join of a list of strings, of the characters of a
string, or of the keys of a dict; "TypeError" otherwise. -/
def pyJoin (sep : String) (v : PyVal) : Except Err String :=
  match v with
  | .str s => .ok (String.intercalate sep (s.toList.map String.singleton))
  | .list l =>
    match asStrList l with
    | some ss => .ok (String.intercalate sep ss)
    | Option.none => .error .typeError
  | .dict d => .ok (String.intercalate sep (d.map Prod.fst))
  | _ => .error .typeError

/-- The source expression reading one key of the INFO sub-dictionary
(vcf_parser.py lines 85, 86, 95, 96): blank string when the entry has no
INFO key, otherwise a ".get(key, blank)" on the INFO value, which raises
"AttributeError" when that value is not a dict. -/
def infoField (entry : List (String × PyVal)) (key : String) : Except Err PyVal :=
  if dictMem entry "INFO" then pyGetAttr (dictGetD entry "INFO" .none) key (.str "")
  else .ok (.str "")

/-- A decoded input record as exposed by the external decoder (cyvcf2):
chromosome, position, reference allele, and the sequence of alternate
alleles. Field names follow the attributes read by the source. -/
structure VCFRecord where
  CHROM : String
  POS : ℤ
  REF : String
  ALT : List String

/-- The normalized variant: the four-key dict built by "parse_vcf_entry"
(vcf_parser.py lines 16-21), with its fixed keys as fields. -/
structure Variant where
  chrom : String
  pos : ℤ
  ref : String
  alt : String

/-- The normalized variant as the Python dict that "parse_vcf_entry"
returns, in the key order of the source dict literal. -/
def variantToDict (v : Variant) : List (String × PyVal) :=
  [("chrom", .str v.chrom), ("pos", .int v.pos),
   ("ref", .str v.ref), ("alt", .str v.alt)]

/-- vcf_parser.py lines 6-21: extract chrom, pos, ref and the FIRST alternate
allele from a decoded record. Indexing "entry.ALT[0]" on an empty alternate
list raises "IndexError". -/
def parse_vcf_entry (entry : VCFRecord) : Except Err Variant :=
  match entry.ALT with
  | [] => .error .indexError
  | a :: _ => .ok ⟨entry.CHROM, entry.POS, entry.REF, a⟩

/-- vcf_parser.py lines 35-36: the positional query string
built from a variant, with the position incremented by one. -/
def spdi_notation (variant : Variant) : String :=
  variant.chrom ++ ":" ++ toString (variant.pos + 1) ++ ":" ++
    variant.ref ++ ":" ++ variant.alt

/-- An HTTP response as seen through the requests library: a status code and
the result of ".json()" (which can itself fail on an undecodable body). -/
structure HttpResponse where
  status_code : ℤ
  body : Except String PyVal

/-- vcf_parser.py line 38: the JSON payload of the POST request. -/
def mkPayload (variant : Variant) : PyVal :=
  .dict [("variants", .list [.str ( spdi_notation variant)])]

/-- vcf_parser.py lines 23-45. The network call "requests.post" is the
external collaborator, passed as the function "post"; a transport failure is
its ".error" result. A 200 response yields the parsed JSON body; any other
status yields the empty dict; any exception inside the "try" block (transport
error, or a body that fails to decode) is swallowed and yields the empty
dict. -/
def query_ensembl (post : PyVal → Except String HttpResponse)
    (variant : Variant) : PyVal :=
  match post (mkPayload variant) with
  | .error _ => .dict []
  | .ok response =>
    if response.status_code = 200 then
      match response.body with
      | .ok j => j
      | .error _ => .dict []
    else .dict []

/-- The percentage expression "str(round(num / den * 100, 2))" of
vcf_parser.py lines 87-88, on already-extracted operands. -/
def percentExpr (num den : PyVal) : Except Err PyVal := do
  let q ← pyDiv num den
  let m ← pyMul q (.int 100)
  let r ← pyRound2 m
  pure (PyVal.str (pyStr r))

/-- vcf_parser.py lines 90-93: the gene and variant-effect pair, taken from
the first element of a truthy "transcript_consequences" value. -/
def geneFields (entry : List (String × PyVal)) : Except Err (PyVal × PyVal) :=
  if dictMem entry "transcript_consequences" &&
      pyTruthy (dictGetD entry "transcript_consequences" .none) then do
    let tc0a ← pyGetItem0 (dictGetD entry "transcript_consequences" .none)
    let gene ← pyGetAttr tc0a "gene_symbol" (.str "")
    let tc0b ← pyGetItem0 (dictGetD entry "transcript_consequences" .none)
    let terms ← pyGetAttr tc0b "consequence_terms" (.list [])
    let ve ← pyJoin ", " terms
    pure (gene, PyVal.str ve)
  else pure (PyVal.str "", PyVal.str "")

/-- vcf_parser.py lines 68-101: project a merged report entry onto the 14
CSV columns, in source evaluation order. Fallible dynamic operations
propagate their exception. -/
def extract_csv_fields (entry : List (String × PyVal)) :
    Except Err (List PyVal) :=
  let chrom := dictGetD entry "chrom" (.str "")
  let pos := dictGetD entry "pos" (.str "")
  let ref := dictGetD entry "ref" (.str "")
  let alt := dictGetD entry "alt" (.str "")
  infoField entry "DP" >>= fun depth =>
  infoField entry "AO" >>= fun alt_reads =>
  (if pyTruthy depth && pyTruthy alt_reads then percentExpr alt_reads depth
    else pure (PyVal.str "")) >>= fun percent_alt_reads =>
  (if pyTruthy depth && pyTruthy alt_reads then
      pySub depth alt_reads >>= fun s => percentExpr s depth
    else pure (PyVal.str "")) >>= fun percent_ref_reads =>
  geneFields entry >>= fun gv =>
  infoField entry "MA" >>= fun minor_allele =>
  infoField entry "MAF" >>= fun minor_allele_frequency =>
  let idv := dictGetD entry "id" (.str "")
  pyContains (.str "COSV") idv >>= fun som =>
  let somatic := PyVal.str (if som then "1" else "")
  pure [chrom, pos, ref, alt, depth, alt_reads, percent_alt_reads,
    percent_ref_reads, gv.1, gv.2, minor_allele, minor_allele_frequency,
    somatic, idv]

/-- The fixed 14-column header (vcf_parser.py line 131). -/
def csvHeader : List String :=
  ["chrom", "pos", "ref", "alt", "depth", "alt_reads", "percent_alt_reads",
   "percent_ref_reads", "gene", "variant_effect", "minor_allele",
   "minor_allele_frequency", "somatic", "id"]

/-- Fallible map over a list, stopping at the first exception: the shape of
the Python for-loops of "main". -/
def mapME {α β : Type} (f : α → Except Err β) : List α → Except Err (List β)
  | [] => .ok []
  | x :: xs => do
    let y ← f x
    let ys ← mapME f xs
    pure (y :: ys)

/-- vcf_parser.py lines 117-119, one iteration of the main loop: normalize
the record, query the annotation service, and merge via the double-splat dict
display. Merging a non-dict annotation value raises "TypeError". -/
def processRecord (post : PyVal → Except String HttpResponse)
    (record : VCFRecord) : Except Err (List (String × PyVal)) := do
  let vcf_data ← parse_vcf_entry record
  let ensembl_data := query_ensembl post vcf_data
  match ensembl_data with
  | .dict e => pure (mergeDicts (variantToDict vcf_data) e)
  | _ => .error .typeError

/-- vcf_parser.py lines 104-136 (the source function "main"; Lean reserves
that name for executables). The result models the two output artifacts
of a completed run: the pickled list of merged entries, and the CSV rows
(header row first, then one projected row per entry). An unhandled exception
in any stage is the ".error" result and no completed run exists. -/
def main_pipeline (post : PyVal → Except String HttpResponse)
    (records : List VCFRecord) :
    Except Err (List (List (String × PyVal)) × List (List PyVal)) := do
  let all_data ← mapME (processRecord post) records
  let rows ← mapME extract_csv_fields all_data
  pure (all_data, (csvHeader.map PyVal.str) :: rows)

/-! ## Helper lemmas -/

theorem bindE_ok {ε α β : Type} {x : Except ε α} {f : α → Except ε β} {b : β} :
    x >>= f = .ok b ↔ ∃ a, x = .ok a ∧ f a = .ok b := by
  cases x <;> simp [Bind.bind, Except.bind]

theorem bindE_err {ε α β : Type} {x : Except ε α} {f : α → Except ε β} {e : ε} :
    x >>= f = .error e ↔ x = .error e ∨ ∃ a, x = .ok a ∧ f a = .error e := by
  cases x <;> simp [Bind.bind, Except.bind]

theorem pureE_ok {ε α : Type} {a b : α} :
    (pure a : Except ε α) = .ok b ↔ a = b := by
  simp [pure, Except.pure]

theorem pureE_ne_err {ε α : Type} {a : α} {e : ε} :
    (pure a : Except ε α) ≠ .error e := by
  simp [pure, Except.pure]

theorem mapME_ok_spec {α β : Type} {f : α → Except Err β} :
    ∀ {l : List α} {l2 : List β}, mapME f l = .ok l2 →
      l2.length = l.length ∧
      ∀ i (h1 : i < l.length) (h2 : i < l2.length),
        f (l.get ⟨i, h1⟩) = .ok (l2.get ⟨i, h2⟩) := by
  intro l
  induction l with
  | nil =>
    intro l2 h
    simp only [mapME] at h
    cases h
    simp
  | cons x xs ih =>
    intro l2 h
    simp only [mapME] at h
    rw [bindE_ok] at h
    obtain ⟨y, hy, h⟩ := h
    rw [bindE_ok] at h
    obtain ⟨ys, hys, h⟩ := h
    rw [pureE_ok] at h
    subst h
    obtain ⟨hlen, hget⟩ := ih hys
    refine ⟨by simp [hlen], ?_⟩
    intro i h1 h2
    cases i with
    | zero => simpa using hy
    | succ n => simpa using hget n (by simpa using h1) (by simpa using h2)

theorem mapME_ok_mem {α β : Type} {f : α → Except Err β} :
    ∀ {l : List α} {l2 : List β}, mapME f l = .ok l2 →
      ∀ x ∈ l, ∃ y, f x = .ok y := by
  intro l
  induction l with
  | nil =>
    intro l2 _ x hx
    simp at hx
  | cons a as ih =>
    intro l2 h x hx
    simp only [mapME] at h
    rw [bindE_ok] at h
    obtain ⟨y, hy, h⟩ := h
    rw [bindE_ok] at h
    obtain ⟨ys, hys, _⟩ := h
    rcases List.mem_cons.mp hx with rfl | hx2
    · exact ⟨y, hy⟩
    · exact ih hys x hx2

theorem pyTruthy_num {v : PyVal} {y : Flt} (ht : pyTruthy v = true)
    (hv : pyNumView v = some y) : y.num ≠ 0 := by
  cases v with
  | bool b =>
    simp [pyTruthy] at ht
    subst ht
    simp [pyNumView] at hv
    subst hv
    decide
  | int n =>
    simp [pyTruthy] at ht
    simp [pyNumView] at hv
    subst hv
    simpa using ht
  | float f =>
    simp [pyTruthy] at ht
    simp [pyNumView] at hv
    subst hv
    simpa using ht
  | none => simp [pyNumView] at hv
  | str s => simp [pyNumView] at hv
  | list l => simp [pyNumView] at hv
  | dict d => simp [pyNumView] at hv

theorem infoField_no_zde (entry : List (String × PyVal)) (key : String) :
    infoField entry key ≠ .error .zeroDivisionError := by
  unfold infoField pyGetAttr
  split
  · split <;> simp
  · simp

theorem pyDiv_no_zde {a b : PyVal} (hb : pyTruthy b = true) :
    pyDiv a b ≠ .error .zeroDivisionError := by
  unfold pyDiv
  cases ha : pyNumView a with
  | none => cases hbv : pyNumView b <;> simp
  | some x =>
    cases hbv : pyNumView b with
    | none => simp
    | some y =>
      have hne := pyTruthy_num hb hbv
      simp [hne]

theorem pyMul_no_zde (a b : PyVal) : pyMul a b ≠ .error .zeroDivisionError := by
  unfold pyMul
  split
  · simp
  · split <;> simp

theorem pySub_no_zde (a b : PyVal) : pySub a b ≠ .error .zeroDivisionError := by
  unfold pySub
  split
  · simp
  · split <;> simp

theorem pyRound2_no_zde (v : PyVal) : pyRound2 v ≠ .error .zeroDivisionError := by
  cases v <;> simp [pyRound2]

theorem pyGetAttr_no_zde (v : PyVal) (key : String) (dflt : PyVal) :
    pyGetAttr v key dflt ≠ .error .zeroDivisionError := by
  cases v <;> simp [pyGetAttr]

theorem pyGetItem0_no_zde (v : PyVal) : pyGetItem0 v ≠ .error .zeroDivisionError := by
  unfold pyGetItem0
  split <;> (try split) <;> simp

theorem pyJoin_no_zde (sep : String) (v : PyVal) :
    pyJoin sep v ≠ .error .zeroDivisionError := by
  unfold pyJoin
  split <;> (try split) <;> simp

theorem pyContains_no_zde (needle hay : PyVal) :
    pyContains needle hay ≠ .error .zeroDivisionError := by
  unfold pyContains
  split <;> (try split) <;> simp

theorem percentExpr_no_zde (num den : PyVal) (hden : pyTruthy den = true) :
    percentExpr num den ≠ .error .zeroDivisionError := by
  intro h
  unfold percentExpr at h
  rw [bindE_err] at h
  rcases h with h | ⟨q, _, h⟩
  · exact pyDiv_no_zde hden h
  rw [bindE_err] at h
  rcases h with h | ⟨m, _, h⟩
  · exact pyMul_no_zde _ _ h
  rw [bindE_err] at h
  rcases h with h | ⟨r, _, h⟩
  · exact pyRound2_no_zde _ h
  exact pureE_ne_err h

theorem geneFields_no_zde (entry : List (String × PyVal)) :
    geneFields entry ≠ .error .zeroDivisionError := by
  intro h
  unfold geneFields at h
  split at h
  · rw [bindE_err] at h
    rcases h with h | ⟨t0, _, h⟩
    · exact pyGetItem0_no_zde _ h
    rw [bindE_err] at h
    rcases h with h | ⟨g, _, h⟩
    · exact pyGetAttr_no_zde _ _ _ h
    rw [bindE_err] at h
    rcases h with h | ⟨t1, _, h⟩
    · exact pyGetItem0_no_zde _ h
    rw [bindE_err] at h
    rcases h with h | ⟨ct, _, h⟩
    · exact pyGetAttr_no_zde _ _ _ h
    rw [bindE_err] at h
    rcases h with h | ⟨ve, _, h⟩
    · exact pyJoin_no_zde _ _ h
    exact pureE_ne_err h
  · exact pureE_ne_err h

theorem dictLookup_dictSet_self (d : List (String × PyVal)) (k : String) (v : PyVal) :
    dictLookup (dictSet d k v) k = some v := by
  induction d with
  | nil => simp [dictSet, dictLookup]
  | cons p rest ih =>
    obtain ⟨k1, v1⟩ := p
    by_cases h : k1 = k
    · simp [dictSet, h, dictLookup]
    · simp [dictSet, h, dictLookup, ih]

theorem dictLookup_dictSet_ne (d : List (String × PyVal)) {k k2 : String}
    (h : k2 ≠ k) (v : PyVal) :
    dictLookup (dictSet d k v) k2 = dictLookup d k2 := by
  induction d with
  | nil => simp [dictSet, dictLookup, Ne.symm h]
  | cons p rest ih =>
    obtain ⟨k1, v1⟩ := p
    by_cases h1 : k1 = k
    · subst h1
      simp [dictSet, dictLookup, Ne.symm h]
    · simp [dictSet, h1, dictLookup, ih]

theorem dictLookup_eq_none_of_not_mem {b : List (String × PyVal)} {k : String}
    (h : k ∉ b.map Prod.fst) : dictLookup b k = Option.none := by
  induction b with
  | nil => simp [dictLookup]
  | cons p rest ih =>
    obtain ⟨k1, v1⟩ := p
    rw [List.map_cons] at h
    have h1 : k ≠ k1 := fun he => h (by simp [he])
    have h2 : k ∉ rest.map Prod.fst := fun hm => h (List.mem_cons_of_mem _ hm)
    simp [dictLookup, Ne.symm h1, ih h2]

theorem mergeDicts_cons (a : List (String × PyVal)) (k1 : String) (v1 : PyVal)
    (rest : List (String × PyVal)) :
    mergeDicts a ((k1, v1) :: rest) = mergeDicts (dictSet a k1 v1) rest := by
  simp [mergeDicts]

theorem dictLookup_mergeDicts_right_none :
    ∀ {b : List (String × PyVal)} {k : String}, dictLookup b k = Option.none →
      ∀ a, dictLookup (mergeDicts a b) k = dictLookup a k := by
  intro b
  induction b with
  | nil => intro k _ a; simp [mergeDicts]
  | cons p rest ih =>
    intro k hk a
    obtain ⟨k1, v1⟩ := p
    have hne : k1 ≠ k := by
      intro he
      simp [dictLookup, he] at hk
    have hrest : dictLookup rest k = Option.none := by
      simpa [dictLookup, hne] using hk
    rw [mergeDicts_cons, ih hrest, dictLookup_dictSet_ne _ (Ne.symm hne)]

theorem dictLookup_mergeDicts_right_some :
    ∀ {b : List (String × PyVal)}, (b.map Prod.fst).Nodup →
      ∀ {k : String}, (dictLookup b k).isSome = true →
        ∀ a, dictLookup (mergeDicts a b) k = dictLookup b k := by
  intro b
  induction b with
  | nil =>
    intro _ k hk
    simp [dictLookup] at hk
  | cons p rest ih =>
    intro hnd k hk a
    obtain ⟨k1, v1⟩ := p
    simp only [List.map_cons, List.nodup_cons] at hnd
    rw [mergeDicts_cons]
    by_cases h : k1 = k
    · subst h
      have hnone : dictLookup rest k1 = Option.none :=
        dictLookup_eq_none_of_not_mem hnd.1
      rw [dictLookup_mergeDicts_right_none hnone, dictLookup_dictSet_self]
      simp [dictLookup]
    · have hk2 : (dictLookup rest k).isSome = true := by
        simpa [dictLookup, h] using hk
      rw [ih hnd.2 hk2]
      simp [dictLookup, h]

theorem extract_ok_decomp {entry : List (String × PyVal)} {row : List PyVal}
    (h : extract_csv_fields entry = .ok row) :
    ∃ depth alt_reads pa pr gv ma maf som,
      infoField entry "DP" = .ok depth ∧
      infoField entry "AO" = .ok alt_reads ∧
      ((pyTruthy depth && pyTruthy alt_reads) = true →
        percentExpr alt_reads depth = .ok pa ∧
        (pySub depth alt_reads >>= fun s => percentExpr s depth) = .ok pr) ∧
      ((pyTruthy depth && pyTruthy alt_reads) = false →
        pa = .str "" ∧ pr = .str "") ∧
      geneFields entry = .ok gv ∧
      infoField entry "MA" = .ok ma ∧
      infoField entry "MAF" = .ok maf ∧
      pyContains (.str "COSV") (dictGetD entry "id" (.str "")) = .ok som ∧
      row = [dictGetD entry "chrom" (.str ""), dictGetD entry "pos" (.str ""),
        dictGetD entry "ref" (.str ""), dictGetD entry "alt" (.str ""),
        depth, alt_reads, pa, pr, gv.1, gv.2, ma, maf,
        PyVal.str (if som then "1" else ""), dictGetD entry "id" (.str "")] := by
  unfold extract_csv_fields at h
  simp only [bindE_ok, pureE_ok] at h
  obtain ⟨depth, hdp, alt_reads, hao, pa, hpa, pr, hpr, gv, hgv, ma, hma,
    maf, hmaf, som, hsom, hrow⟩ := h
  refine ⟨depth, alt_reads, pa, pr, gv, ma, maf, som, hdp, hao, ?_, ?_,
    hgv, hma, hmaf, hsom, hrow.symm⟩
  · intro hg
    rw [if_pos hg] at hpa hpr
    rw [bindE_ok] at hpr
    obtain ⟨s, hs, hps⟩ := hpr
    exact ⟨hpa, by rw [bindE_ok]; exact ⟨s, hs, hps⟩⟩
  · intro hg
    have hg2 : ¬ ((pyTruthy depth && pyTruthy alt_reads) = true) := by simp [hg]
    rw [if_neg hg2] at hpa hpr
    rw [pureE_ok] at hpa hpr
    exact ⟨hpa.symm, hpr.symm⟩

theorem extract_no_zde (entry : List (String × PyVal)) :
    extract_csv_fields entry ≠ .error .zeroDivisionError := by
  intro h
  unfold extract_csv_fields at h
  rw [bindE_err] at h
  rcases h with h | ⟨depth, hdp, h⟩
  · exact infoField_no_zde _ _ h
  rw [bindE_err] at h
  rcases h with h | ⟨alt_reads, hao, h⟩
  · exact infoField_no_zde _ _ h
  rw [bindE_err] at h
  rcases h with h | ⟨pa, hpa, h⟩
  · cases hg : pyTruthy depth && pyTruthy alt_reads with
    | false =>
      rw [if_neg (by simp [hg])] at h
      exact pureE_ne_err h
    | true =>
      rw [if_pos hg] at h
      exact percentExpr_no_zde _ _ ((Bool.and_eq_true _ _).mp hg).1 h
  rw [bindE_err] at h
  rcases h with h | ⟨pr, hpr, h⟩
  · cases hg : pyTruthy depth && pyTruthy alt_reads with
    | false =>
      rw [if_neg (by simp [hg])] at h
      exact pureE_ne_err h
    | true =>
      rw [if_pos hg] at h
      rw [bindE_err] at h
      rcases h with h | ⟨s, hs, h⟩
      · exact pySub_no_zde _ _ h
      · exact percentExpr_no_zde _ _ ((Bool.and_eq_true _ _).mp hg).1 h
  rw [bindE_err] at h
  rcases h with h | ⟨gv, hgv, h⟩
  · exact geneFields_no_zde _ h
  rw [bindE_err] at h
  rcases h with h | ⟨ma, hma, h⟩
  · exact infoField_no_zde _ _ h
  rw [bindE_err] at h
  rcases h with h | ⟨maf, hmaf, h⟩
  · exact infoField_no_zde _ _ h
  rw [bindE_err] at h
  rcases h with h | ⟨som, hsom, h⟩
  · exact pyContains_no_zde _ _ h
  exact pureE_ne_err h

/-! ## Concrete fixtures used by witnesses -/

/-- A post oracle whose call raises a transport exception. -/
def postFail : PyVal → Except String HttpResponse :=
  fun _ => .error "connection error"

/-- A post oracle answering with HTTP status 500. -/
def postStatus500 : PyVal → Except String HttpResponse :=
  fun _ => .ok ⟨500, .ok (.dict [])⟩

/-- A post oracle answering 200 with a JSON array (not an object) body. -/
def post200List : PyVal → Except String HttpResponse :=
  fun _ => .ok ⟨200, .ok (.list [.int 1])⟩

/-- A post oracle answering 200 with an annotation object that shares the
key "alt" with the normalized variant. -/
def post200Ann : PyVal → Except String HttpResponse :=
  fun _ => .ok ⟨200, .ok (.dict [("id", .str "COSV999"), ("alt", .str "Z")])⟩

def recA : VCFRecord := ⟨"1", 1000000, "G", ["A"]⟩

def recB : VCFRecord := ⟨"2", 5, "T", ["C", "G"]⟩

def recNoAlt : VCFRecord := ⟨"3", 7, "A", []⟩

def varA : Variant := ⟨"1", 1000000, "G", "A"⟩

def annE : List (String × PyVal) := [("id", .str "COSV999"), ("alt", .str "Z")]

def entryIntInfo : List (String × PyVal) :=
  [("chrom", .str "1"), ("pos", .int 99), ("ref", .str "A"), ("alt", .str "T"),
   ("INFO", .dict [("DP", .int 100), ("AO", .int 25)]), ("id", .str "rs42")]

def rowIntInfo : List PyVal :=
  [.str "1", .int 99, .str "A", .str "T", .int 100, .int 25, .str "25.0",
   .str "75.0", .str "", .str "", .str "", .str "", .str "", .str "rs42"]

def entryZeroDepth : List (String × PyVal) :=
  [("INFO", .dict [("DP", .int 0), ("AO", .int 5)])]

def rowZeroDepth : List PyVal :=
  [.str "", .str "", .str "", .str "", .int 0, .int 5, .str "", .str "",
   .str "", .str "", .str "", .str "", .str "", .str ""]

def entryCosv : List (String × PyVal) := [("id", .str "xxCOSV55")]

def rowCosv : List PyVal :=
  [.str "", .str "", .str "", .str "", .str "", .str "", .str "", .str "",
   .str "", .str "", .str "", .str "", .str "1", .str "xxCOSV55"]

def pklW : List (List (String × PyVal)) :=
  [[("chrom", .str "1"), ("pos", .int 1000000), ("ref", .str "G"), ("alt", .str "A")],
   [("chrom", .str "2"), ("pos", .int 5), ("ref", .str "T"), ("alt", .str "C")]]

def csvW : List (List PyVal) :=
  [csvHeader.map PyVal.str,
   [.str "1", .int 1000000, .str "G", .str "A", .str "", .str "", .str "",
    .str "", .str "", .str "", .str "", .str "", .str "", .str ""],
   [.str "2", .int 5, .str "T", .str "C", .str "", .str "", .str "",
    .str "", .str "", .str "", .str "", .str "", .str "", .str ""]]

/-! ## Claims -/

/-- C1, counterexample: at an entry whose INFO maps "DP" to the STRING "100"
and "AO" to the STRING "25" (the values the claim specifies), the guard is
satisfied but the division of two strings raises "TypeError", so
"extract_csv_fields" returns no row at all, let alone one whose
percent_alt_reads is "25.0". -/
theorem claim_C1_counterexample :
    extract_csv_fields
      [("INFO", .dict [("DP", .str "100"), ("AO", .str "25")])]
      = .error .typeError := rfl

/-- C1, amended: for every merged report entry whose INFO value maps "DP" to
the INTEGER 100 and "AO" to the INTEGER 25, any row returned by
"extract_csv_fields" has percent_alt_reads "25.0" (index 6) and
percent_ref_reads "75.0" (index 7). -/
theorem claim_C1 (entry : List (String × PyVal)) (row : List PyVal)
    (hinfo : dictLookup entry "INFO" =
      some (.dict [("DP", .int 100), ("AO", .int 25)]))
    (hrow : extract_csv_fields entry = .ok row) :
    row.get? 6 = some (.str "25.0") ∧ row.get? 7 = some (.str "75.0") := by
  obtain ⟨depth, alt_reads, pa, pr, gv, ma, maf, som, hdp, hao, hT, hF,
    hgv, hma, hmaf, hsom, hrw⟩ := extract_ok_decomp hrow
  have hdp2 : infoField entry "DP" = .ok (.int 100) := by
    unfold infoField dictMem dictGetD
    rw [hinfo]
    rfl
  have hao2 : infoField entry "AO" = .ok (.int 25) := by
    unfold infoField dictMem dictGetD
    rw [hinfo]
    rfl
  rw [hdp2] at hdp
  rw [hao2] at hao
  obtain rfl := Except.ok.inj hdp
  obtain rfl := Except.ok.inj hao
  obtain ⟨hpa, hpr⟩ := hT (by decide)
  rw [show percentExpr (.int 25) (.int 100) = .ok (.str "25.0") from rfl] at hpa
  rw [show (pySub (PyVal.int 100) (PyVal.int 25) >>= fun s =>
      percentExpr s (PyVal.int 100)) = .ok (.str "75.0") from rfl] at hpr
  obtain rfl := Except.ok.inj hpa
  obtain rfl := Except.ok.inj hpr
  subst hrw
  exact ⟨rfl, rfl⟩

/-- C1, witness: a concrete entry with integer INFO values 100 and 25, whose
extracted row carries "25.0" and "75.0". -/
theorem claim_C1_witness :
    extract_csv_fields entryIntInfo = .ok rowIntInfo ∧
    List.get? rowIntInfo 6 = some (.str "25.0") ∧
    List.get? rowIntInfo 7 = some (.str "75.0") :=
  ⟨rfl, claim_C1 entryIntInfo rowIntInfo rfl rfl⟩

/-- C2: for every variant, a transport exception of the post call and every
non-200 response both make "query_ensembl" return the empty dict, and (third
conjunct) the enclosing per-record processing then still succeeds, producing
the bare normalized entry: the run does not abort. -/
theorem claim_C2 :
    (∀ (post : PyVal → Except String HttpResponse) (v : Variant) (e : String),
      post (mkPayload v) = .error e → query_ensembl post v = .dict []) ∧
    (∀ (post : PyVal → Except String HttpResponse) (v : Variant)
      (r : HttpResponse),
      post (mkPayload v) = .ok r → r.status_code ≠ 200 →
      query_ensembl post v = .dict []) ∧
    (∀ (e : String) (rec : VCFRecord) (v : Variant),
      parse_vcf_entry rec = .ok v →
      processRecord (fun _ => .error e) rec = .ok (variantToDict v)) := by
  refine ⟨?_, ?_, ?_⟩
  · intro post v e h
    unfold query_ensembl
    rw [h]
  · intro post v r h hne
    unfold query_ensembl
    rw [h]
    simp [hne]
  · intro e rec v h
    unfold processRecord
    rw [h]
    rfl

/-- C2, witness: the two degraded outcomes and the surviving run at concrete
inputs. -/
theorem claim_C2_witness :
    query_ensembl postFail varA = .dict [] ∧
    query_ensembl postStatus500 varA = .dict [] ∧
    processRecord postFail recA = .ok (variantToDict varA) :=
  ⟨claim_C2.1 postFail varA "connection error" rfl,
   claim_C2.2.1 postStatus500 varA ⟨500, .ok (.dict [])⟩ rfl (by decide),
   claim_C2.2.2 "connection error" recA varA rfl⟩

/-- C3: the positional query string is chrom, position plus one, ref and alt
joined by colons; at the spec instance it is "1:1000001:G:A"; and the POST
payload wraps exactly that string. -/
theorem claim_C3 :
    (∀ (chrom ref alt : String) (pos : ℤ),
      spdi_notation ⟨chrom, pos, ref, alt⟩ =
        chrom ++ ":" ++ toString (pos + 1) ++ ":" ++ ref ++ ":" ++ alt) ∧
    spdi_notation ⟨"1", 1000000, "G", "A"⟩ = "1:1000001:G:A" ∧
    (∀ v : Variant,
      mkPayload v = .dict [("variants", .list [.str ( spdi_notation v)])]) :=
  ⟨fun _ _ _ _ => rfl, rfl, fun _ => rfl⟩

/-- C4: a completed run over N records yields exactly N pickled entries and
N plus one CSV rows (header first), entries and rows in input order. -/
theorem claim_C4 (post : PyVal → Except String HttpResponse)
    (records : List VCFRecord) (pkl : List (List (String × PyVal)))
    (csv : List (List PyVal))
    (h : main_pipeline post records = .ok (pkl, csv)) :
    pkl.length = records.length ∧
    csv.length = records.length + 1 ∧
    (∀ i (h1 : i < records.length) (h2 : i < pkl.length),
      processRecord post (records.get ⟨i, h1⟩) = .ok (pkl.get ⟨i, h2⟩)) ∧
    csv.get? 0 = some (csvHeader.map PyVal.str) ∧
    (∀ i (h2 : i < pkl.length),
      ∃ row, extract_csv_fields (pkl.get ⟨i, h2⟩) = .ok row ∧
        csv.get? (i + 1) = some row) := by
  unfold main_pipeline at h
  rw [bindE_ok] at h
  obtain ⟨all_data, hall, h⟩ := h
  rw [bindE_ok] at h
  obtain ⟨rows, hrows, h⟩ := h
  rw [pureE_ok] at h
  injection h with h1 h2
  subst h1
  subst h2
  obtain ⟨hlen1, hget1⟩ := mapME_ok_spec hall
  obtain ⟨hlen2, hget2⟩ := mapME_ok_spec hrows
  refine ⟨hlen1, by simp [hlen2, hlen1], ?_, rfl, ?_⟩
  · intro i h1 h2
    exact hget1 i h1 h2
  · intro i h2
    have hr : i < rows.length := by rw [hlen2]; exact h2
    refine ⟨rows.get ⟨i, hr⟩, hget2 i h2 hr, ?_⟩
    simp [List.get?_eq_get hr]

/-- C4, witness: two records with a failing annotation service produce two
pickled entries and three CSV rows. -/
theorem claim_C4_witness :
    main_pipeline postFail [recA, recB] = .ok (pklW, csvW) ∧
    pklW.length = [recA, recB].length ∧
    csvW.length = [recA, recB].length + 1 :=
  ⟨rfl, (claim_C4 postFail [recA, recB] pklW csvW rfl).1,
   (claim_C4 postFail [recA, recB] pklW csvW rfl).2.1⟩

/-- C5: for every decoded record with a nonempty alternate list,
"parse_vcf_entry" copies chrom, pos and ref unchanged and takes the first
alternate allele. -/
theorem claim_C5 (rec : VCFRecord) (a : String) (rest : List String)
    (h : rec.ALT = a :: rest) :
    parse_vcf_entry rec = .ok ⟨rec.CHROM, rec.POS, rec.REF, a⟩ := by
  unfold parse_vcf_entry
  rw [h]

/-- C5, witness: a multi-allelic record keeps only its first alternate. -/
theorem claim_C5_witness :
    recB.ALT = "C" :: ["G"] ∧
    parse_vcf_entry recB = .ok ⟨recB.CHROM, recB.POS, recB.REF, "C"⟩ :=
  ⟨rfl, claim_C5 recB "C" ["G"] rfl⟩

/-- C6: the percentage computation never raises "ZeroDivisionError" (a zero
or otherwise falsy depth fails the guard), and whenever the depth / alt-read
pair is not both truthy, the two percentage columns of a returned row are the
empty string. -/
theorem claim_C6 :
    (∀ entry, extract_csv_fields entry ≠ .error .zeroDivisionError) ∧
    (∀ (entry : List (String × PyVal)) (row : List PyVal)
      (depth alt_reads : PyVal),
      extract_csv_fields entry = .ok row →
      infoField entry "DP" = .ok depth →
      infoField entry "AO" = .ok alt_reads →
      ¬(pyTruthy depth = true ∧ pyTruthy alt_reads = true) →
      row.get? 6 = some (.str "") ∧ row.get? 7 = some (.str "")) := by
  refine ⟨extract_no_zde, ?_⟩
  intro entry row depth alt_reads hrow hdp hao hng
  obtain ⟨d2, a2, pa, pr, gv, ma, maf, som, hdp2, hao2, hT, hF, _, _, _,
    hsom, hrw⟩ := extract_ok_decomp hrow
  rw [hdp] at hdp2
  rw [hao] at hao2
  obtain rfl := Except.ok.inj hdp2
  obtain rfl := Except.ok.inj hao2
  have hg : (pyTruthy depth && pyTruthy alt_reads) = false := by
    cases h1 : pyTruthy depth <;> cases h2 : pyTruthy alt_reads <;> simp_all
  obtain ⟨rfl, rfl⟩ := hF hg
  subst hrw
  exact ⟨rfl, rfl⟩

/-- C6, witness: a zero depth is falsy, the guard blocks the division, and
the percentage columns are blank; the no-division-by-zero part applied at
the same concrete entry. -/
theorem claim_C6_witness :
    (extract_csv_fields entryZeroDepth ≠ .error .zeroDivisionError) ∧
    extract_csv_fields entryZeroDepth = .ok rowZeroDepth ∧
    List.get? rowZeroDepth 6 = some (.str "") ∧
    List.get? rowZeroDepth 7 = some (.str "") := by
  refine ⟨claim_C6.1 entryZeroDepth, rfl, ?_⟩
  exact claim_C6.2 entryZeroDepth rowZeroDepth (.int 0) (.int 5) rfl rfl rfl
    (by decide)

/-- C7: in every returned row, when the entry id value is a string (the
default blank string when the key is missing), the somatic column (index 12)
is "1" exactly when that string contains the substring "COSV", and blank
otherwise. -/
theorem claim_C7 (entry : List (String × PyVal)) (row : List PyVal)
    (s : String)
    (hid : dictGetD entry "id" (.str "") = .str s)
    (hrow : extract_csv_fields entry = .ok row) :
    row.get? 12 =
      some (.str (if listInfixOf ("COSV".toList) s.toList then "1" else ""))
      := by
  obtain ⟨depth, alt_reads, pa, pr, gv, ma, maf, som, _, _, _, _, _, _, _,
    hsom, hrw⟩ := extract_ok_decomp hrow
  rw [hid] at hsom
  rw [show pyContains (.str "COSV") (.str s) =
    .ok (listInfixOf ("COSV".toList) s.toList) from rfl] at hsom
  obtain rfl := Except.ok.inj hsom
  subst hrw
  rfl

/-- C7, witness: an id containing "COSV" yields somatic "1"; the fixture
entryZeroDepth has no id key, its row (claim_C6 witness) carries blank
somatic. -/
theorem claim_C7_witness :
    extract_csv_fields entryCosv = .ok rowCosv ∧
    List.get? rowCosv 12 = some (.str "1") :=
  ⟨rfl, claim_C7 entryCosv rowCosv "xxCOSV55" rfl rfl⟩

/-- C8: a record with an empty alternate list makes "parse_vcf_entry" raise
"IndexError", and a run over any record list containing such a record can
never complete: the failure is not caught anywhere in the pipeline. -/
theorem claim_C8 :
    (∀ rec : VCFRecord, rec.ALT = [] →
      parse_vcf_entry rec = .error .indexError) ∧
    (∀ (post : PyVal → Except String HttpResponse)
      (records : List VCFRecord),
      (∃ r ∈ records, r.ALT = []) →
      ∀ out, main_pipeline post records ≠ .ok out) := by
  constructor
  · intro rec h
    unfold parse_vcf_entry
    rw [h]
  · rintro post records ⟨r, hr, halt⟩ out h
    unfold main_pipeline at h
    rw [bindE_ok] at h
    obtain ⟨all_data, hall, _⟩ := h
    obtain ⟨y, hy⟩ := mapME_ok_mem hall r hr
    unfold processRecord at hy
    rw [bindE_ok] at hy
    obtain ⟨v, hv, _⟩ := hy
    have hpe : parse_vcf_entry r = .error .indexError := by
      unfold parse_vcf_entry
      rw [halt]
    rw [hpe] at hv
    exact Except.noConfusion hv

/-- C8, witness: a record with no alternate alleles raises, and the run over
it cannot produce the empty output pair. -/
theorem claim_C8_witness :
    parse_vcf_entry recNoAlt = .error .indexError ∧
    main_pipeline postFail [recNoAlt] ≠ .ok ([], [csvHeader.map PyVal.str]) :=
  ⟨claim_C8.1 recNoAlt rfl,
   claim_C8.2 postFail [recNoAlt] ⟨recNoAlt, by simp, rfl⟩
     ([], [csvHeader.map PyVal.str])⟩

/-- C9: one loop iteration merges the normalized variant with the annotation
dict through the double-splat display, and for every key present in the
annotation dict (its keys are distinct, as keys of a Python dict are) the
merged entry takes the annotation value, overriding the variant value. -/
theorem claim_C9 (post : PyVal → Except String HttpResponse)
    (rec : VCFRecord) (v : Variant) (e : List (String × PyVal)) (k : String)
    (hparse : parse_vcf_entry rec = .ok v)
    (hq : query_ensembl post v = .dict e)
    (hnd : (e.map Prod.fst).Nodup)
    (hk : (dictLookup e k).isSome = true) :
    processRecord post rec = .ok (mergeDicts (variantToDict v) e) ∧
    dictLookup (mergeDicts (variantToDict v) e) k = dictLookup e k := by
  constructor
  · unfold processRecord
    rw [bindE_ok]
    refine ⟨v, hparse, ?_⟩
    rw [hq]
    rfl
  · exact dictLookup_mergeDicts_right_some hnd hk _

/-- C9, witness: an annotation object sharing the key "alt" with the variant
wins the merge at that key. -/
theorem claim_C9_witness :
    processRecord post200Ann recA = .ok (mergeDicts (variantToDict varA) annE) ∧
    dictLookup (mergeDicts (variantToDict varA) annE) "alt" =
      dictLookup annE "alt" :=
  claim_C9 post200Ann recA varA annE "alt" rfl rfl (by decide) rfl

/-- C10: a 200 response body is returned by "query_ensembl" unchanged, with
no check that it is a mapping; with a JSON array body the merge step of the
main loop raises "TypeError" and the run aborts. -/
theorem claim_C10 :
    (∀ (v : Variant) (j : PyVal),
      query_ensembl (fun _ => .ok ⟨200, .ok j⟩) v = j) ∧
    query_ensembl post200List varA = .list [.int 1] ∧
    main_pipeline post200List [recA] = .error .typeError :=
  ⟨fun _ _ => rfl, rfl, rfl⟩
